import Mathlib

/-!
Verification of the client-side authentication session manager of the
psu-link-training repository (src/cln/app/stores/auth.ts).

The store is shallowly embedded: the Zustand store state is the structure
`AuthState`; each store action becomes a pure Lean function from the prior
state (plus an environment value describing the backend's responses for the
network calls that action makes) to the result and the next state.  The
`persist` middleware, its `partialize` projection, and the module-level
`isProcessingCallback` flag of the OIDC callback handler are modelled
explicitly.  JavaScript truthiness on strings (null/undefined/"" are falsy)
is modelled by `jsTruthy` on `Option String`.
-/

namespace AuthStore

/-- `AUTH_ERRORS.UNAUTHORIZED` from auth.ts. -/
def UNAUTHORIZED : String := "Unauthorized"

/-- `AUTH_ERRORS.LOGIN_FAILED` from auth.ts. -/
def LOGIN_FAILED : String := "LoginFailed"

/-- The `User` interface of auth.ts: `{ id, username, email?, webAllowed?, isAdmin? }`. -/
structure User where
  id : String
  username : String
  email : Option String
  webAllowed : Option Bool
  isAdmin : Option Bool
deriving DecidableEq, Repr

/-- The data fields of the Zustand `AuthState`:
`{ user, isAuthenticated, isLoading, error }`.  `error` holds the raw string
stored by the actions (`AUTH_ERRORS.*` or a server-supplied message). -/
structure AuthState where
  user : Option User
  isAuthenticated : Bool
  isLoading : Bool
  error : Option String
deriving DecidableEq, Repr

/-- The initial store state: `user: null, isAuthenticated: false,
isLoading: false, error: null`. -/
def initialState : AuthState :=
  { user := none, isAuthenticated := false, isLoading := false, error := none }

/-- A rejected API call as observed by the store actions.  `message` is
`error.response?.data?.message` (absent when the rejection has no such
field). -/
structure ApiFailure where
  message : Option String
deriving DecidableEq, Repr

deriving instance DecidableEq for Except

/-- JavaScript truthiness of a nullable string: `null`, `undefined` and the
empty string are falsy. -/
def jsTruthy : Option String → Bool
  | some v => v != ""
  | none => false

/-- The error string stored by `login`'s catch branch:
`error.response?.data?.message || AUTH_ERRORS.LOGIN_FAILED`. -/
def loginCatchError (f : ApiFailure) : String :=
  match f.message with
  | some m => if m == "" then LOGIN_FAILED else m
  | none => LOGIN_FAILED

/-- Backend outcomes consumed by one `login` call:
the `POST /auth/login` result, and the `GET /auth/me/info` result used by the
inner `loadUserProfile` call (its payload is `response.data.data`, which may
be absent). -/
structure LoginEnv where
  loginResult : Except ApiFailure Unit
  profileResult : Except ApiFailure (Option User)
deriving DecidableEq, Repr

/-- `loadUserProfile` of auth.ts: on success stores `response.data.data` as
`user` and returns it; on rejection logs, returns `null`, and leaves the
state untouched. -/
def loadUserProfile (r : Except ApiFailure (Option User)) (s : AuthState) :
    Option User × AuthState :=
  match r with
  | .ok u => (u, { s with user := u })
  | .error _ => (none, s)

/-- `login` of auth.ts.  Sets `isLoading: true, error: null`; posts
`/auth/login`; on success runs `loadUserProfile` and checks
`!user || user.webAllowed === false`; the catch branch stores
`error.response?.data?.message || LOGIN_FAILED`.  Returns the boolean result
together with the final state. -/
def login (_username _password : String) (env : LoginEnv) (s : AuthState) :
    Bool × AuthState :=
  let s1 := { s with isLoading := true, error := none }
  match env.loginResult with
  | .error e =>
      (false, { s1 with isLoading := false, error := some (loginCatchError e),
                        isAuthenticated := false })
  | .ok _ =>
      let (u, s2) := loadUserProfile env.profileResult s1
      match u with
      | none =>
          (false, { s2 with isAuthenticated := false, isLoading := false,
                            error := some UNAUTHORIZED, user := none })
      | some usr =>
          if usr.webAllowed = some false then
            (false, { s2 with isAuthenticated := false, isLoading := false,
                              error := some UNAUTHORIZED, user := none })
          else
            (true, { s2 with isAuthenticated := true, isLoading := false,
                             error := none })

/-- `getProfile` of auth.ts: fetches `/auth/me/info`; a truthy `user` sets
`isAuthenticated: true, user, error: null`; a missing payload or a rejection
sets `isAuthenticated: false, user: null` (leaving `error` alone). -/
def getProfile (r : Except ApiFailure (Option User)) (s : AuthState) :
    Option User × AuthState :=
  match r with
  | .ok (some u) =>
      (some u, { s with isAuthenticated := true, user := some u, error := none })
  | .ok none => (none, { s with isAuthenticated := false, user := none })
  | .error _ => (none, { s with isAuthenticated := false, user := none })

/-- The state update of `logout` in auth.ts: the `POST /auth/logout` outcome
is caught and only logged (`serverLogoutOk` is therefore ignored), then
`user: null, isAuthenticated: false, error: null` is set unconditionally. -/
def logoutState (serverLogoutOk : Bool) (s : AuthState) : AuthState :=
  let _ := serverLogoutOk
  { s with user := none, isAuthenticated := false, error := none }

/-- `clearError` of auth.ts: `set({ error: null })`. -/
def clearError (s : AuthState) : AuthState := { s with error := none }

/-- `setTokens` of auth.ts: ignores both token arguments and sets
`isAuthenticated: true` only. -/
def setTokens (_accessToken _refreshToken : String) (s : AuthState) : AuthState :=
  { s with isAuthenticated := true }

/-- The persisted projection produced by the `partialize` option:
`{ user: state.user, isAuthenticated: state.isAuthenticated }`. -/
structure PersistedProjection where
  user : Option User
  isAuthenticated : Bool
deriving DecidableEq, Repr

/-- `partialize` of auth.ts. -/
def partialize (s : AuthState) : PersistedProjection :=
  { user := s.user, isAuthenticated := s.isAuthenticated }

/-- A JSON field value appearing in the persisted object. -/
inductive PersistedValue where
  | userVal (u : Option User)
  | boolVal (b : Bool)
deriving DecidableEq, Repr

/-- The field list of the serialized projection object, in source order. -/
def projectionFields (p : PersistedProjection) : List (String × PersistedValue) :=
  [("user", .userVal p.user), ("isAuthenticated", .boolVal p.isAuthenticated)]

/-- The fields the persist middleware writes for a given store state. -/
def partializeFields (s : AuthState) : List (String × PersistedValue) :=
  projectionFields (partialize s)

/-- Store state together with the two browser storage tiers seen by the
persist middleware.  `usesLocal` is the result of the one-time
test-write-then-remove probe in `createJSONStorage`: when `true` the
middleware writes `localStorage`, otherwise it falls back to
`sessionStorage`.  Each tier holds the value under the `auth-storage` key
(`none` when absent). -/
structure StoreWorld where
  state : AuthState
  usesLocal : Bool
  localStore : Option PersistedProjection
  sessionStore : Option PersistedProjection
deriving DecidableEq, Repr

/-- One `set` through the persist middleware: install the new state and write
its `partialize` projection to the chosen storage tier. -/
def persistSet (w : StoreWorld) (s : AuthState) : StoreWorld :=
  if w.usesLocal then
    { w with state := s, localStore := some (partialize s) }
  else
    { w with state := s, sessionStore := some (partialize s) }

/-- The storage tier the persist middleware actually uses. -/
def activeStore (w : StoreWorld) : Option PersistedProjection :=
  if w.usesLocal then w.localStore else w.sessionStore

/-- `logout` of auth.ts at the world level: the server call outcome is
absorbed; `set({user: null, isAuthenticated: false, error: null})` runs
through the persist middleware; finally
`sessionStorage.removeItem('auth-storage')` clears the session tier. -/
def logoutWorld (serverLogoutOk : Bool) (w : StoreWorld) : StoreWorld :=
  let w1 := persistSet w (logoutState serverLogoutOk w.state)
  { w1 with sessionStore := none }

/-!
## Refresh interceptor (`createApiClient` in auth.ts)

The response-error interceptor is embedded as a pure function of the
incoming rejection and of the outcomes of the network calls it may make
(the `POST /auth/refresh`, and the replay `client(originalRequest)`).
The `_retry` marker lives on the request config and is set before the
refresh, so a replayed request that fails again re-enters the interceptor
with `retryFlag = true`.
-/

/-- The part of an Axios request config the interceptor reads and mutates:
`_retry`. -/
structure RequestConfig where
  url : String
  retryFlag : Bool
deriving DecidableEq, Repr

/-- An Axios rejection as seen by the interceptor: `error.config` may be
absent, `error.response?.status` may be absent (network error). -/
structure AxiosErr where
  config : Option RequestConfig
  status : Option Nat
deriving DecidableEq, Repr

/-- A successful Axios response (payload abstracted to a string). -/
structure AxiosResponse where
  data : String
deriving DecidableEq, Repr

/-- What the interceptor ultimately rejects with: either an `AxiosErr`
(the incoming rejection passed through, or the replayed request's own
rejection) or the refresh call's rejection. -/
inductive Rejection where
  | axios (e : AxiosErr)
  | refreshFail (r : ApiFailure)
deriving DecidableEq, Repr

/-- Network outcomes consumed by one interceptor run: the refresh call and
the replay of the original request (with `_retry` already set to true). -/
structure InterceptorEnv where
  refreshResult : Except ApiFailure Unit
  replayResult : Except AxiosErr AxiosResponse
deriving DecidableEq, Repr

/-- Observable outcome of one interceptor run. -/
structure InterceptOutcome where
  result : Except Rejection AxiosResponse
  refreshCalls : Nat
  replayCalls : Nat
  authFailedCalled : Bool
deriving DecidableEq, Repr

/-- The response-error interceptor of `createApiClient`:
no config ⇒ reject as-is; status 401 and `_retry` unset ⇒ set `_retry`,
post `/auth/refresh`, on success replay the original request and return its
result, on failure call `onAuthFailed` and reject with the refresh error;
anything else ⇒ reject as-is. -/
def onResponseError (env : InterceptorEnv) (e : AxiosErr) : InterceptOutcome :=
  match e.config with
  | none => ⟨.error (.axios e), 0, 0, false⟩
  | some cfg =>
      if e.status = some 401 ∧ cfg.retryFlag = false then
        match env.refreshResult with
        | .ok _ =>
            match env.replayResult with
            | .ok resp => ⟨.ok resp, 1, 1, false⟩
            | .error e2 => ⟨.error (.axios e2), 1, 1, false⟩
        | .error r => ⟨.error (.refreshFail r), 1, 0, true⟩
      else ⟨.error (.axios e), 0, 0, false⟩

/-!
## OIDC callback handler (`handleOidcCallback` in auth.ts)

Embedded as a pure function of the module-level `isProcessingCallback`
flag, the URL query parameters, and the outcomes of the two network
exchanges (`manager.signinRedirectCallback()` against the identity
provider, and `POST /auth/openid/verify-token` against the backend).
-/

/-- `String.prototype.includes`: `charsHavePref p l` is "`p` is a prefix of
`l`". -/
def charsHavePref : List Char → List Char → Bool
  | [], _ => true
  | _ :: _, [] => false
  | a :: as, b :: bs => a == b && charsHavePref as bs

/-- `charsInclude p l` is "`p` occurs contiguously in `l`". -/
def charsInclude (pat : List Char) : List Char → Bool
  | [] => charsHavePref pat []
  | b :: bs => charsHavePref pat (b :: bs) || charsInclude pat bs

/-- JavaScript `s.includes(pat)`. -/
def strIncludes (s pat : String) : Bool := charsInclude pat.toList s.toList

/-- `tokenError.message && tokenError.message.includes('Invalid token')`. -/
def invalidTokenMessage (msg : Option String) : Bool :=
  jsTruthy msg && strIncludes (msg.getD "") "Invalid token"

/-- The fields of an `oidc-client-ts` `User` that auth.ts reads or builds. -/
structure OidcUser where
  id_token : Option String
  access_token : String
  token_type : String
  scope : Option String
  expires_at : Nat
  state : Option String
deriving DecidableEq, Repr

/-- `defaultScope` in the fallback branch of `handleOidcCallback`. -/
def defaultScope : String := "openid profile email"

/-- The minimal fallback user object built when the identity-provider token
fails validation: raw authorization `code` as `access_token`, empty
`id_token`, the incoming `state`. -/
def fallbackUser (code st : String) : OidcUser :=
  { id_token := some "", access_token := code, token_type := "Bearer",
    scope := some defaultScope, expires_at := 0, state := some st }

/-- The `OidcVerifyTokenResponse` interface of auth.ts. -/
structure OidcVerifyTokenResponse where
  access_token : String
  refresh_token : String
deriving DecidableEq, Repr

/-- The `requestParams` record sent to `/auth/openid/verify-token`; `none`
fields are absent from the record. -/
structure RequestParams where
  access_token : String
  id_token : Option String
  code : Option String
  state : Option String
deriving DecidableEq, Repr

/-- Assembly of `requestParams`: always `access_token`; `id_token` when
truthy; `code` and `state` (the latter as `state || ''`) when there is no
truthy id token and `code` is truthy. -/
def buildRequestParams (user : OidcUser) (code st : String) : RequestParams :=
  { access_token := user.access_token,
    id_token := if jsTruthy user.id_token then user.id_token else none,
    code := if !(jsTruthy user.id_token) && code != "" then some code else none,
    state := if !(jsTruthy user.id_token) && code != "" then some st else none }

/-- The distinct failure exits of `handleOidcCallback`, one per throw
site: manager absent, duplicate-processing guard, missing `code`/`state`
query parameter, a re-raised identity-provider exchange error, a rejected
backend verification call. -/
inductive OidcErr where
  | notEnabled
  | duplicateCallback
  | missingCodeOrState
  | tokenError (message : Option String)
  | verifyFailed (e : ApiFailure)
deriving DecidableEq, Repr

/-- The value returned by a successful `handleOidcCallback`. -/
structure OidcSuccess where
  user : OidcUser
  access_token : String
  refresh_token : String
deriving DecidableEq, Repr

/-- Environment of one `handleOidcCallback` invocation: whether
`getUserManager()` yields a manager, the `code`/`state` query parameters,
and the outcomes of the identity-provider exchange (its error carries
`tokenError.message`) and of the backend verification call. -/
structure OidcEnv where
  managerAvailable : Bool
  code : Option String
  state : Option String
  signinResult : Except (Option String) OidcUser
  verifyResult : Except ApiFailure OidcVerifyTokenResponse
deriving DecidableEq, Repr

/-- Observable outcome of one `handleOidcCallback` invocation: the result,
the `isProcessingCallback` flag after return, whether the identity-provider
exchange was attempted, and the backend verification call with its params
(`none` when no such call was made). -/
structure OidcOutcome where
  result : Except OidcErr OidcSuccess
  flagAfter : Bool
  signinCalled : Bool
  verifyCalled : Option RequestParams
deriving DecidableEq, Repr

/-- The tail of `handleOidcCallback` shared by the primary and fallback
paths: assemble `requestParams`, post `/auth/openid/verify-token`, return
the application tokens or re-raise; the `finally` clause clears the flag
either way. -/
def finishVerify (env : OidcEnv) (user : OidcUser) (code st : String) :
    OidcOutcome :=
  let params := buildRequestParams user code st
  match env.verifyResult with
  | .ok data =>
      ⟨.ok ⟨user, data.access_token, data.refresh_token⟩, false, true, some params⟩
  | .error e => ⟨.error (.verifyFailed e), false, true, some params⟩

/-- `handleOidcCallback` of auth.ts.  The duplicate-processing throw happens
before the `try`/`finally`, so it leaves the flag untouched; every path that
sets the flag clears it in `finally`. -/
def handleOidcCallback (env : OidcEnv) (isProcessingCallback : Bool) :
    OidcOutcome :=
  if env.managerAvailable = false then
    ⟨.error .notEnabled, isProcessingCallback, false, none⟩
  else if isProcessingCallback then
    ⟨.error .duplicateCallback, isProcessingCallback, false, none⟩
  else if jsTruthy env.code = false ∨ jsTruthy env.state = false then
    ⟨.error .missingCodeOrState, false, false, none⟩
  else
    let c := env.code.getD ""
    let st := env.state.getD ""
    match env.signinResult with
    | .ok user => finishVerify env user c st
    | .error msg =>
        if invalidTokenMessage msg then finishVerify env (fallbackUser c st) c st
        else ⟨.error (.tokenError msg), false, true, none⟩

/-- The Session invariant claimed by the spec: an authenticated session has a
present user whose `webAllowed` is not `false`. -/
def sessionInvariant (s : AuthState) : Prop :=
  s.isAuthenticated = true → ∃ u, s.user = some u ∧ u.webAllowed ≠ some false

/-- A concrete logged-in world used to instantiate world-level theorems. -/
def wEx : StoreWorld :=
  { state := { user := some ⟨"1", "u0", none, some true, none⟩,
               isAuthenticated := true, isLoading := true,
               error := some "Unauthorized" },
    usesLocal := true,
    localStore := some ⟨some ⟨"1", "u0", none, some true, none⟩, true⟩,
    sessionStore := some ⟨none, false⟩ }

/-!
## Theorems
-/

/-- Every exit of `finishVerify` clears the in-progress flag. -/
theorem finishVerify_flagAfter (env : OidcEnv) (u : OidcUser) (c st : String) :
    (finishVerify env u c st).flagAfter = false := by
  unfold finishVerify
  cases env.verifyResult <;> rfl

/-- Every exit of `finishVerify` performs the backend verification call with
the assembled request parameters. -/
theorem finishVerify_verifyCalled (env : OidcEnv) (u : OidcUser) (c st : String) :
    (finishVerify env u c st).verifyCalled = some (buildRequestParams u c st) := by
  unfold finishVerify
  cases env.verifyResult <;> rfl

/-- C10: when the profile request rejects, `loadUserProfile` returns `null`
and leaves every field of the session state unchanged; in particular it does
not force a logout. -/
theorem loadUserProfile_failure_frame (f : ApiFailure) (s : AuthState) :
    loadUserProfile (.error f) s = (none, s) := rfl

/-- C9: the persisted projection carries exactly the fields `user` and
`isAuthenticated`, for every store state (hence also after any action that
sets an error); it never carries `isLoading` or `error`. -/
theorem partializeFields_exact (s : AuthState) :
    (partializeFields s).map Prod.fst = ["user", "isAuthenticated"] ∧
    "isLoading" ∉ (partializeFields s).map Prod.fst ∧
    "error" ∉ (partializeFields s).map Prod.fst := by
  have h : (partializeFields s).map Prod.fst = ["user", "isAuthenticated"] := rfl
  refine ⟨h, ?_, ?_⟩ <;> rw [h] <;> decide

/-- Witness for C9 at a concrete store state carrying an error. -/
theorem partializeFields_exact_witness :
    (partializeFields wEx.state).map Prod.fst = ["user", "isAuthenticated"] ∧
    "isLoading" ∉ (partializeFields wEx.state).map Prod.fst ∧
    "error" ∉ (partializeFields wEx.state).map Prod.fst :=
  partializeFields_exact wEx.state

/-- C2: when the server authenticates the credentials but the loaded profile
has `webAllowed === false`, `login` returns `false` and leaves
`isAuthenticated = false`, `user = null`, `error = UNAUTHORIZED`,
`isLoading = false`. -/
theorem login_webAllowed_false (un pw : String) (env : LoginEnv) (s : AuthState)
    (u : User) (hlogin : env.loginResult = .ok ())
    (hprofile : env.profileResult = .ok (some u))
    (hweb : u.webAllowed = some false) :
    login un pw env s =
      (false, { user := none, isAuthenticated := false, isLoading := false,
                error := some UNAUTHORIZED }) := by
  simp [login, loadUserProfile, hlogin, hprofile, hweb]

/-- Witness for C2 at a concrete user and backend outcome. -/
theorem login_webAllowed_false_witness :
    login "u0" "pw" ⟨.ok (), .ok (some ⟨"1", "u0", none, some false, none⟩)⟩
        initialState =
      (false, { user := none, isAuthenticated := false, isLoading := false,
                error := some UNAUTHORIZED }) :=
  login_webAllowed_false "u0" "pw" _ initialState ⟨"1", "u0", none, some false, none⟩
    rfl rfl rfl

/-- C7: when the callback parameters lack the `code` value (absent or empty,
both falsy), `handleOidcCallback` fails at the missing-parameter throw site,
makes neither the identity-provider exchange nor the backend verification
call, and clears the in-progress flag. -/
theorem handleOidcCallback_missing_code (env : OidcEnv)
    (hm : env.managerAvailable = true) (hc : jsTruthy env.code = false) :
    handleOidcCallback env false =
      ⟨.error .missingCodeOrState, false, false, none⟩ := by
  simp [handleOidcCallback, hm, hc]

/-- Witness for C7: a callback URL with no `code` parameter. -/
theorem handleOidcCallback_missing_code_witness :
    handleOidcCallback ⟨true, none, some "st",
        .ok ⟨none, "tok", "Bearer", none, 0, none⟩, .ok ⟨"a", "r"⟩⟩ false =
      ⟨.error .missingCodeOrState, false, false, none⟩ :=
  handleOidcCallback_missing_code _ rfl rfl

/-- C3: a `handleOidcCallback` call while one is already in flight
(`isProcessingCallback = true`) fails fast at the duplicate-processing throw
site, makes no network call, and leaves the in-progress flag set; whereas a
call that takes the flag (entering with `isProcessingCallback = false`)
always returns with the flag cleared, whatever its own outcome. -/
theorem handleOidcCallback_duplicate_guard (env : OidcEnv)
    (hm : env.managerAvailable = true) :
    handleOidcCallback env true = ⟨.error .duplicateCallback, true, false, none⟩ ∧
    (handleOidcCallback env false).flagAfter = false := by
  constructor
  · simp [handleOidcCallback, hm]
  · unfold handleOidcCallback
    simp only [hm]
    by_cases hcs : jsTruthy env.code = false ∨ jsTruthy env.state = false
    · simp [hcs]
    · simp only [hcs, if_true, if_false, reduceIte]
      cases hs : env.signinResult with
      | ok u => simp [finishVerify_flagAfter]
      | error msg =>
          by_cases hmsg : invalidTokenMessage msg = true
          · simp [hmsg, finishVerify_flagAfter]
          · simp [hmsg]

/-- Witness for C3 at a concrete environment. -/
theorem handleOidcCallback_duplicate_guard_witness :
    handleOidcCallback ⟨true, some "c", some "st",
        .ok ⟨none, "tok", "Bearer", none, 0, none⟩, .ok ⟨"a", "r"⟩⟩ true =
      ⟨.error .duplicateCallback, true, false, none⟩ ∧
    (handleOidcCallback ⟨true, some "c", some "st",
        .ok ⟨none, "tok", "Bearer", none, 0, none⟩, .ok ⟨"a", "r"⟩⟩ false).flagAfter
      = false :=
  handleOidcCallback_duplicate_guard _ rfl

/-- C6: with valid callback parameters, the identity-provider exchange
result determines the path exactly: a successful exchange proceeds to
backend verification with the obtained user; a failure whose message
includes `Invalid token` builds the fallback credential — raw `code` as
access token, the incoming `state`, empty id token — and still proceeds to
backend verification; any other exchange failure is re-raised with no
verification call. -/
theorem handleOidcCallback_fallback_iff (env : OidcEnv) (c st : String)
    (hm : env.managerAvailable = true) (hc : env.code = some c) (hce : c ≠ "")
    (hs : env.state = some st) (hse : st ≠ "") :
    (∀ u, env.signinResult = .ok u →
       handleOidcCallback env false = finishVerify env u c st) ∧
    (∀ msg, env.signinResult = .error msg → invalidTokenMessage msg = true →
       handleOidcCallback env false = finishVerify env (fallbackUser c st) c st ∧
       (fallbackUser c st).access_token = c ∧
       (fallbackUser c st).state = some st ∧
       jsTruthy (fallbackUser c st).id_token = false ∧
       (handleOidcCallback env false).verifyCalled =
         some (buildRequestParams (fallbackUser c st) c st)) ∧
    (∀ msg, env.signinResult = .error msg → invalidTokenMessage msg = false →
       handleOidcCallback env false = ⟨.error (.tokenError msg), false, true, none⟩) := by
  have hred : ∀ o : OidcOutcome,
      (match env.signinResult with
        | .ok user => finishVerify env user c st
        | .error msg =>
            if invalidTokenMessage msg then finishVerify env (fallbackUser c st) c st
            else ⟨.error (.tokenError msg), false, true, none⟩) = o →
      handleOidcCallback env false = o := by
    intro o ho
    unfold handleOidcCallback
    simp [hm, hc, hs, jsTruthy, hce, hse, ho]
  refine ⟨?_, ?_, ?_⟩
  · intro u hu
    apply hred
    simp [hu]
  · intro msg hmsg hinv
    have hmain : handleOidcCallback env false = finishVerify env (fallbackUser c st) c st := by
      apply hred
      simp [hmsg, hinv]
    refine ⟨hmain, rfl, rfl, rfl, ?_⟩
    rw [hmain]
    exact finishVerify_verifyCalled env (fallbackUser c st) c st
  · intro msg hmsg hinv
    apply hred
    simp [hmsg, hinv]

/-- Witness for C6: a concrete invalid-token exchange failure takes the
fallback path into backend verification. -/
theorem handleOidcCallback_fallback_iff_witness :
    handleOidcCallback ⟨true, some "authcode", some "xyz",
        .error (some "Invalid token received"), .ok ⟨"a", "r"⟩⟩ false =
      finishVerify ⟨true, some "authcode", some "xyz",
        .error (some "Invalid token received"), .ok ⟨"a", "r"⟩⟩
        (fallbackUser "authcode" "xyz") "authcode" "xyz" ∧
    (fallbackUser "authcode" "xyz").access_token = "authcode" ∧
    (fallbackUser "authcode" "xyz").state = some "xyz" ∧
    jsTruthy (fallbackUser "authcode" "xyz").id_token = false ∧
    (handleOidcCallback ⟨true, some "authcode", some "xyz",
        .error (some "Invalid token received"), .ok ⟨"a", "r"⟩⟩ false).verifyCalled =
      some (buildRequestParams (fallbackUser "authcode" "xyz") "authcode" "xyz") :=
  (handleOidcCallback_fallback_iff _ "authcode" "xyz" rfl rfl (by decide) rfl
    (by decide)).2.1 (some "Invalid token received") rfl (by decide)

/-- C8: `logout` is idempotent and total: its result does not depend on the
server call's outcome, repeating it is a no-op, and it unconditionally
clears the local session (`user`, `isAuthenticated`, `error`) and leaves no
authenticated data in either storage tier. -/
theorem logout_idempotent (b1 b2 : Bool) (w : StoreWorld) :
    logoutWorld b2 (logoutWorld b1 w) = logoutWorld b1 w ∧
    logoutWorld b2 w = logoutWorld b1 w ∧
    (logoutWorld b1 w).state.user = none ∧
    (logoutWorld b1 w).state.isAuthenticated = false ∧
    (logoutWorld b1 w).state.error = none ∧
    (logoutWorld b1 w).sessionStore = none ∧
    (∀ p, activeStore (logoutWorld b1 w) = some p →
       p = ⟨none, false⟩) := by
  unfold logoutWorld persistSet logoutState activeStore partialize
  by_cases hl : w.usesLocal <;> simp [hl]

/-- Witness for C8 at a concrete logged-in world. -/
theorem logout_idempotent_witness :
    logoutWorld false (logoutWorld true wEx) = logoutWorld true wEx ∧
    logoutWorld false wEx = logoutWorld true wEx ∧
    (logoutWorld true wEx).state.user = none ∧
    (logoutWorld true wEx).state.isAuthenticated = false ∧
    (logoutWorld true wEx).state.error = none ∧
    (logoutWorld true wEx).sessionStore = none ∧
    (∀ p, activeStore (logoutWorld true wEx) = some p → p = ⟨none, false⟩) :=
  logout_idempotent true false wEx

/-- C1 counterexample: `setTokens` sets `isAuthenticated: true` without
establishing a user, so the claimed invariant fails immediately after
`setTokens` on the initial state. -/
theorem setTokens_invariant_cex :
    (setTokens "acc" "ref" initialState).isAuthenticated = true ∧
    (setTokens "acc" "ref" initialState).user = none ∧
    ¬ sessionInvariant (setTokens "acc" "ref" initialState) := by
  refine ⟨rfl, rfl, fun h => ?_⟩
  rcases h rfl with ⟨u, hu, _⟩
  exact Option.noConfusion hu

/-- C1 amended: the invariant holds in the initial state and is preserved by
`login`, `logout` and `clearError`; `getProfile` preserves only the
user-presence half (it never checks `webAllowed`), and `setTokens` preserves
neither. -/
theorem sessionInvariant_core_preserved (un pw : String) (env : LoginEnv)
    (b : Bool) (r : Except ApiFailure (Option User)) (s : AuthState)
    (h : sessionInvariant s) :
    sessionInvariant initialState ∧
    sessionInvariant (login un pw env s).2 ∧
    sessionInvariant (logoutState b s) ∧
    sessionInvariant (clearError s) ∧
    ((getProfile r s).2.isAuthenticated = true →
       ∃ u, (getProfile r s).2.user = some u) := by
  refine ⟨?_, ?_, ?_, ?_, ?_⟩
  · intro h0
    simp [initialState] at h0
  · rcases henv : env.loginResult with f | u0
    · intro hauth
      simp [login, henv] at hauth
    · rcases hp : env.profileResult with f | u
      · intro hauth
        simp [login, loadUserProfile, henv, hp] at hauth
      · rcases u with _ | usr
        · intro hauth
          simp [login, loadUserProfile, henv, hp] at hauth
        · by_cases hw : usr.webAllowed = some false
          · intro hauth
            simp [login, loadUserProfile, henv, hp, hw] at hauth
          · intro _
            refine ⟨usr, ?_, hw⟩
            simp [login, loadUserProfile, henv, hp, hw]
  · intro hauth
    simp [logoutState] at hauth
  · intro hauth
    exact h hauth
  · rcases hr : r with f | u
    · intro hauth
      simp [getProfile, hr] at hauth
    · rcases u with _ | usr
      · intro hauth
        simp [getProfile, hr] at hauth
      · intro _
        exact ⟨usr, by simp [getProfile, hr]⟩

/-- Witness for the amended C1 at the initial state and a concrete
web-entitled login. -/
theorem sessionInvariant_core_preserved_witness :
    sessionInvariant initialState ∧
    sessionInvariant (login "u0" "pw"
      ⟨.ok (), .ok (some ⟨"1", "u0", none, some true, none⟩)⟩ initialState).2 ∧
    sessionInvariant (logoutState true initialState) ∧
    sessionInvariant (clearError initialState) ∧
    ((getProfile (.ok (some ⟨"1", "u0", none, some true, none⟩))
        initialState).2.isAuthenticated = true →
       ∃ u, (getProfile (.ok (some ⟨"1", "u0", none, some true, none⟩))
        initialState).2.user = some u) :=
  sessionInvariant_core_preserved "u0" "pw" _ true _ initialState
    (fun h0 => by simp [initialState] at h0)

/-- C4 counterexample: on refresh failure the interceptor rejects with the
refresh call's own error, not with the original 401 rejection. -/
theorem interceptor_refresh_error_cex :
    (onResponseError ⟨.error ⟨some "refresh down"⟩, .ok ⟨"d"⟩⟩
        ⟨some ⟨"/links", false⟩, some 401⟩).result =
      .error (.refreshFail ⟨some "refresh down"⟩) ∧
    (onResponseError ⟨.error ⟨some "refresh down"⟩, .ok ⟨"d"⟩⟩
        ⟨some ⟨"/links", false⟩, some 401⟩).result ≠
      .error (.axios ⟨some ⟨"/links", false⟩, some 401⟩) := by
  decide

/-- C4 amended: a 401 with a config not yet retried triggers exactly one
refresh call; on refresh success the original request is replayed exactly
once and its result (success or its own rejection) is returned; on refresh
failure the auth-failed callback fires and the refresh call's rejection is
propagated; any rejection with another status, without a config, or already
retried, passes through untouched with no refresh. -/
theorem interceptor_contract (env : InterceptorEnv) (e : AxiosErr) :
    ((∃ cfg, e.config = some cfg ∧ cfg.retryFlag = false) → e.status = some 401 →
       (onResponseError env e).refreshCalls = 1 ∧
       (∀ resp, env.refreshResult = .ok () → env.replayResult = .ok resp →
          onResponseError env e = ⟨.ok resp, 1, 1, false⟩) ∧
       (∀ e2, env.refreshResult = .ok () → env.replayResult = .error e2 →
          onResponseError env e = ⟨.error (.axios e2), 1, 1, false⟩) ∧
       (∀ r, env.refreshResult = .error r →
          onResponseError env e = ⟨.error (.refreshFail r), 1, 0, true⟩)) ∧
    (e.config = none → onResponseError env e = ⟨.error (.axios e), 0, 0, false⟩) ∧
    (e.status ≠ some 401 → e.config ≠ none →
       onResponseError env e = ⟨.error (.axios e), 0, 0, false⟩) ∧
    (∀ cfg, e.config = some cfg → cfg.retryFlag = true →
       onResponseError env e = ⟨.error (.axios e), 0, 0, false⟩) := by
  refine ⟨?_, ?_, ?_, ?_⟩
  · rintro ⟨cfg, hcfg, hretry⟩ hstatus
    rcases hrf : env.refreshResult with rr | u
    · simp [onResponseError, hcfg, hstatus, hretry, hrf]
    · rcases hrp : env.replayResult with e2 | resp
      · simp [onResponseError, hcfg, hstatus, hretry, hrf, hrp]
      · simp [onResponseError, hcfg, hstatus, hretry, hrf, hrp]
  · intro hc
    simp [onResponseError, hc]
  · intro hstatus hc
    rcases he : e.config with _ | cfg
    · exact absurd he hc
    · simp [onResponseError, he, hstatus]
  · intro cfg hcfg hretry
    simp [onResponseError, hcfg, hretry]

/-- Witness for the amended C4: a concrete 401 whose refresh call fails. -/
theorem interceptor_contract_witness :
    onResponseError ⟨.error ⟨some "boom"⟩, .ok ⟨"d"⟩⟩
        ⟨some ⟨"/u", false⟩, some 401⟩ =
      ⟨.error (.refreshFail ⟨some "boom"⟩), 1, 0, true⟩ :=
  ((interceptor_contract ⟨.error ⟨some "boom"⟩, .ok ⟨"d"⟩⟩
      ⟨some ⟨"/u", false⟩, some 401⟩).1
    ⟨⟨"/u", false⟩, rfl, rfl⟩ rfl).2.2.2 ⟨some "boom"⟩ rfl

/-- C5 counterexample: when the login request rejects with a server-supplied
message, `login` stores that message, which is neither `UNAUTHORIZED` nor
`LOGIN_FAILED`. -/
theorem login_server_message_cex :
    (login "u" "p" ⟨.error ⟨some "Service unavailable"⟩, .ok none⟩
        initialState).2.error = some "Service unavailable" ∧
    "Service unavailable" ≠ UNAUTHORIZED ∧
    "Service unavailable" ≠ LOGIN_FAILED := by
  refine ⟨rfl, ?_, ?_⟩ <;> decide

/-- C5 amended: `login` is total (never throws, returns a boolean) and
clears `isLoading` on every exit path; on failure it sets `error` to
`UNAUTHORIZED`, or — when the login request itself was rejected — to the
server-provided message, falling back to `LOGIN_FAILED` when none is
provided. -/
theorem login_error_contract (un pw : String) (env : LoginEnv) (s : AuthState) :
    (login un pw env s).2.isLoading = false ∧
    ((login un pw env s).1 = false →
       (login un pw env s).2.error = some UNAUTHORIZED ∨
       ∃ f, env.loginResult = .error f ∧
         (login un pw env s).2.error = some (loginCatchError f)) ∧
    (∀ f, f.message = none → loginCatchError f = LOGIN_FAILED) := by
  refine ⟨?_, ?_, fun f hf => by simp [loginCatchError, hf]⟩
  · rcases henv : env.loginResult with f | u0
    · simp [login, henv]
    · rcases hp : env.profileResult with f | u
      · simp [login, loadUserProfile, henv, hp]
      · rcases u with _ | usr
        · simp [login, loadUserProfile, henv, hp]
        · by_cases hw : usr.webAllowed = some false <;>
            simp [login, loadUserProfile, henv, hp, hw]
  · intro hfail
    rcases henv : env.loginResult with f | u0
    · exact .inr ⟨f, rfl, by simp [login, henv]⟩
    · rcases hp : env.profileResult with f | u
      · exact .inl (by simp [login, loadUserProfile, henv, hp])
      · rcases u with _ | usr
        · exact .inl (by simp [login, loadUserProfile, henv, hp])
        · by_cases hw : usr.webAllowed = some false
          · exact .inl (by simp [login, loadUserProfile, henv, hp, hw])
          · exfalso
            simp [login, loadUserProfile, henv, hp, hw] at hfail

/-- Witness for the amended C5 at a concrete rejected login request with no
server message. -/
theorem login_error_contract_witness :
    (login "u" "p" ⟨.error ⟨none⟩, .ok none⟩ initialState).2.isLoading = false ∧
    ((login "u" "p" ⟨.error ⟨none⟩, .ok none⟩ initialState).1 = false →
       (login "u" "p" ⟨.error ⟨none⟩, .ok none⟩ initialState).2.error =
         some UNAUTHORIZED ∨
       ∃ f, (⟨.error ⟨none⟩, .ok none⟩ : LoginEnv).loginResult = .error f ∧
         (login "u" "p" ⟨.error ⟨none⟩, .ok none⟩ initialState).2.error =
           some (loginCatchError f)) ∧
    (∀ f, f.message = none → loginCatchError f = LOGIN_FAILED) :=
  login_error_contract "u" "p" ⟨.error ⟨none⟩, .ok none⟩ initialState

end AuthStore
